import Mathlib

/-!
Verification of the chat-bot relay (bot.py / ai_handler.py / config.py).

The Python sources are shallowly embedded: dictionaries that cross the
provider wire boundary become a small JSON value type, the internal history
item schema becomes `HistItem`, and each `_build_*` / `_ask_*` function of
`ai_handler.py` and each history-manipulating helper of `bot.py` becomes an
executable Lean definition translated line by line from the source.
-/

/-- JSON-like values: models the Python dicts/lists/strings sent to providers. -/
inductive Json where
  | str (s : String)
  | arr (xs : List Json)
  | obj (fields : List (String × Json))

/-- A multimodal content part, ai_handler.py module docstring:
`{"type": "text"|"image_b64"|"pdf_text", ...}`.  `other` stands for a part
dict whose "type" tag is none of the three recognised literals. -/
inductive MPart where
  | text (t : String)
  | image_b64 (data : String) (mime : String)
  | pdf_text (t : String)
  | other (tag : String)

/-- Content of a history item: `str | list[part]` (ai_handler.py docstring). -/
inductive Content where
  | str (s : String)
  | parts (ps : List MPart)

/-- One internal history item: `{ "role": str, "content": str | list[part] }`. -/
structure HistItem where
  role : String
  content : Content

/-- Python str.strip with no argument: drop leading and trailing whitespace.
Used by the bot wherever the source calls .strip(). -/
def pystrip (s : String) : String :=
  String.mk (((s.data.dropWhile Char.isWhitespace).reverse.dropWhile Char.isWhitespace).reverse)

/-- ai_handler.make_text_part -/
def make_text_part (t : String) : MPart := MPart.text t

/-- ai_handler.make_pdf_part -/
def make_pdf_part (t : String) : MPart := MPart.pdf_text t

/-- The base64 alphabet used by the Python function base64.b64encode. -/
def b64Alphabet : List Char :=
  "ABCDEFGHIJKLMNOPQRSTUVWXYZabcdefghijklmnopqrstuvwxyz0123456789+/".toList

def b64Char (n : Nat) : Char := b64Alphabet.getD n 'A'

/-- RFC 4648 base64 of a byte list (Python base64.b64encode). -/
def b64encodeChars : List Nat → List Char
  | [] => []
  | [a] => [b64Char (a / 4), b64Char (a % 4 * 16), '=', '=']
  | [a, b] => [b64Char (a / 4), b64Char (a % 4 * 16 + b / 16), b64Char (b % 16 * 4), '=']
  | a :: b :: c :: rest =>
      b64Char (a / 4) :: b64Char (a % 4 * 16 + b / 16) ::
      b64Char (b % 16 * 4 + c / 64) :: b64Char (c % 64) :: b64encodeChars rest

def b64encode (data : List Nat) : String := String.mk (b64encodeChars data)

/-- ai_handler.encode_image_bytes: raw bytes to an `image_b64` part. -/
def encode_image_bytes (data : List Nat) (mime : String) : MPart :=
  MPart.image_b64 (b64encode data) mime

/-- One part of the `elif` chain inside `_build_openai_messages`; the chain has
no `else`, so an unrecognised tag appends nothing (`none`). -/
def openaiPart : MPart → Option Json
  | .text t => some (.obj [("type", .str "text"), ("text", .str t)])
  | .image_b64 data mime =>
      some (.obj [("type", .str "image_url"),
        ("image_url", .obj [("url", .str ("data:" ++ mime ++ ";base64," ++ data))])])
  | .pdf_text t => some (.obj [("type", .str "text"), ("text", .str ("[PDF Content]\n" ++ t))])
  | .other _ => none

/-- The per-item body of the loop in `ai_handler._build_openai_messages`. -/
def openaiMessage (item : HistItem) : Json :=
  match item.content with
  | .str s => .obj [("role", .str item.role), ("content", .str s)]
  | .parts ps => .obj [("role", .str item.role), ("content", .arr (ps.filterMap openaiPart))]

/-- ai_handler._build_openai_messages -/
def build_openai_messages (history : List HistItem) : List Json :=
  history.map openaiMessage

/-- One part of the `elif` chain inside `_build_gemini_contents`. -/
def geminiPart : MPart → Option Json
  | .text t => some (.obj [("text", .str t)])
  | .image_b64 data mime =>
      some (.obj [("inlineData", .obj [("mimeType", .str mime), ("data", .str data)])])
  | .pdf_text t => some (.obj [("text", .str ("[PDF Content]\n" ++ t))])
  | .other _ => none

/-- The per-item body of the loop in `ai_handler._build_gemini_contents`:
`role = "user" if item["role"] == "user" else "model"`. -/
def geminiContent (item : HistItem) : Json :=
  let role := if item.role = "user" then "user" else "model"
  let parts : List Json :=
    match item.content with
    | .str s => [.obj [("text", .str s)]]
    | .parts ps => ps.filterMap geminiPart
  .obj [("role", .str role), ("parts", .arr parts)]

/-- ai_handler._build_gemini_contents -/
def build_gemini_contents (history : List HistItem) : List Json :=
  history.map geminiContent

/-- One part of the `elif` chain inside `_build_anthropic_messages`. -/
def anthropicPart : MPart → Option Json
  | .text t => some (.obj [("type", .str "text"), ("text", .str t)])
  | .image_b64 data mime =>
      some (.obj [("type", .str "image"),
        ("source", .obj [("type", .str "base64"), ("media_type", .str mime), ("data", .str data)])])
  | .pdf_text t => some (.obj [("type", .str "text"), ("text", .str ("[PDF Content]\n" ++ t))])
  | .other _ => none

/-- The per-item body of the loop in `ai_handler._build_anthropic_messages`. -/
def anthropicMessage (item : HistItem) : Json :=
  match item.content with
  | .str s => .obj [("role", .str item.role), ("content", .str s)]
  | .parts ps => .obj [("role", .str item.role), ("content", .arr (ps.filterMap anthropicPart))]

/-- ai_handler._build_anthropic_messages -/
def build_anthropic_messages (history : List HistItem) : List Json :=
  history.map anthropicMessage

/-- True exactly for the three part tags the adapter `elif` chains recognise. -/
def partIsKnown : MPart → Bool
  | .other _ => false
  | _ => true

-- ── Provider responses and reply extraction ─────────────────────────────────

structure OpenAIMessageWire where
  content : String

structure OpenAIChoice where
  message : OpenAIMessageWire

/-- The response shape `_ask_openai` / `_ask_openrouter` read from. -/
structure OpenAIResponse where
  choices : List OpenAIChoice

/-- Models `response.choices[0].message.content.strip()`; `none` models the
IndexError on an empty choice list. -/
def extractOpenaiReply (r : OpenAIResponse) : Option String :=
  r.choices.head?.map (fun c => pystrip c.message.content)

structure GeminiPartWire where
  text : String

structure GeminiContentWire where
  parts : List GeminiPartWire

structure GeminiCandidate where
  content : GeminiContentWire

/-- The response shape `_ask_gemini` reads from. -/
structure GeminiResponse where
  candidates : List GeminiCandidate

/-- Models `data["candidates"][0]["content"]["parts"][0]["text"].strip()`. -/
def extractGeminiReply (r : GeminiResponse) : Option String :=
  r.candidates.head?.bind (fun c => c.content.parts.head?.map (fun p => pystrip p.text))

structure AnthropicBlock where
  text : String

/-- The response shape `_ask_anthropic` reads from. -/
structure AnthropicResponse where
  content : List AnthropicBlock

/-- Models `response.content[0].text.strip()`. -/
def extractAnthropicReply (r : AnthropicResponse) : Option String :=
  r.content.head?.map (fun b => pystrip b.text)

-- ── Requests each adapter sends ─────────────────────────────────────────────

def OPENROUTER_BASE_URL : String := "https://openrouter.ai/api/v1"

/-- The chat-completions call `_ask_openai` / `_ask_openrouter` issue:
an optional base_url override, the model, and the serialized messages. -/
structure OpenAIStyleRequest where
  base_url : Option String
  model : String
  messages : List Json

/-- The request `_ask_openai` builds (default endpoint, OpenAI serialization). -/
def openaiRequest (model : String) (history : List HistItem) : OpenAIStyleRequest :=
  { base_url := none, model := model, messages := build_openai_messages history }

/-- The request `_ask_openrouter` builds: same serialization call
(`_build_openai_messages`), base_url set to OPENROUTER_BASE_URL. -/
def openrouterRequest (model : String) (history : List HistItem) : OpenAIStyleRequest :=
  { base_url := some OPENROUTER_BASE_URL, model := model,
    messages := build_openai_messages history }

/-- The POST `_ask_gemini` issues: url embeds model and key; payload is
`{"contents": _build_gemini_contents(history)}`. -/
structure GeminiRequest where
  url : String
  contents : List Json

def geminiRequest (model key : String) (history : List HistItem) : GeminiRequest :=
  { url := "https://generativelanguage.googleapis.com/v1beta/models/" ++ model
      ++ ":generateContent?key=" ++ key,
    contents := build_gemini_contents history }

/-- The messages call `_ask_anthropic` issues. -/
structure AnthropicRequest where
  model : String
  max_tokens : Nat
  messages : List Json

def anthropicRequest (model : String) (history : List HistItem) : AnthropicRequest :=
  { model := model, max_tokens := 4096, messages := build_anthropic_messages history }

/-- The request `ask_ai` would dispatch, tagged by the adapter chosen. -/
inductive DispatchedRequest where
  | openrouterReq (r : OpenAIStyleRequest)
  | openaiReq (r : OpenAIStyleRequest)
  | geminiReq (r : GeminiRequest)
  | anthropicReq (r : AnthropicRequest)

/-- ai_handler.ask_ai: the `if/elif` dispatch on AI_PROVIDER; the final `else`
raises ValueError (modelled as `Except.error`).  `provider`, `model` and
`key` stand for config.AI_PROVIDER, config.get_model() and config.AI_API_KEY. -/
def ask_ai (provider model key : String) (history : List HistItem) :
    Except String DispatchedRequest :=
  if provider = "openrouter" then .ok (.openrouterReq (openrouterRequest model history))
  else if provider = "openai" then .ok (.openaiReq (openaiRequest model history))
  else if provider = "gemini" then .ok (.geminiReq (geminiRequest model key history))
  else if provider = "anthropic" then .ok (.anthropicReq (anthropicRequest model history))
  else .error ("Unknown AI_PROVIDER: " ++ provider ++ ". Use: openrouter | openai | gemini | anthropic")

-- ── config.py ───────────────────────────────────────────────────────────────

/-- config.DEFAULT_MODELS -/
def DEFAULT_MODELS : List (String × String) :=
  [("openai", "gpt-4o"), ("gemini", "gemini-1.5-pro"),
   ("anthropic", "claude-3-5-sonnet-20241022"),
   ("openrouter", "google/gemini-2.0-flash-001")]

/-- config.get_model: `AI_MODEL or DEFAULT_MODELS.get(AI_PROVIDER, fallback)`. -/
def get_model (ai_model provider : String) : String :=
  if ai_model ≠ "" then ai_model
  else ((DEFAULT_MODELS.lookup provider).getD "google/gemini-2.0-flash-001")

/-- Startup validation in bot.main: it raises only when TELEGRAM_BOT_TOKEN or
AI_API_KEY is empty; AI_PROVIDER is not inspected here. -/
def mainChecks (telegram_bot_token ai_api_key : String) : Except String Unit :=
  if telegram_bot_token = "" then .error "TELEGRAM_BOT_TOKEN is not set in .env"
  else if ai_api_key = "" then .error "AI_API_KEY is not set in .env"
  else .ok ()

-- ── bot.py history management ───────────────────────────────────────────────

/-- Embeds bot._trim_history for the history of one user.  `maxH` is config.MAX_HISTORY.
Python keeps `hist[-max_items:]` when `len(hist) > max_items`; note that a
`[-0:]` slice is the whole list, hence the `maxItems = 0` branch. -/
def trim_history (maxH : Nat) (hist : List HistItem) : List HistItem :=
  let maxItems := maxH * 2
  if hist.length > maxItems then
    if maxItems = 0 then hist else hist.drop (hist.length - maxItems)
  else hist

/-- What `_send_ai_reply` does after the provider returns: on failure one
error message is sent; on success the reply is post-processed
(`_strip_markdown` then `_split`) and sent in chunks. -/
inductive SendOutcome where
  | failed (errMsg : String)
  | succeeded (reply : String)

/-- bot._send_ai_reply, the history/state part: append the user turn, trim,
call the provider on the current history; on exception pop the just-appended
item and send one error message; on success append the assistant turn and
trim again.  `provider` stands for the full network round trip of `ask_ai`. -/
def send_ai_reply (maxH : Nat) (provider : List HistItem → Except String String)
    (hist : List HistItem) (user_parts : Content) : List HistItem × SendOutcome :=
  let h1 := trim_history maxH (hist ++ [⟨"user", user_parts⟩])
  match provider h1 with
  | .error e => (h1.dropLast, .failed ("⚠️ AI error: " ++ e))
  | .ok reply =>
      let h2 := trim_history maxH (h1 ++ [⟨"assistant", Content.str reply⟩])
      (h2, .succeeded reply)

/-- bot.handle_text: strip the text; return untouched on empty; otherwise
dispatch through `_send_ai_reply`.  `none` outcome means no send happened. -/
def handle_text (maxH : Nat) (provider : List HistItem → Except String String)
    (hist : List HistItem) (raw : String) : List HistItem × Option SendOutcome :=
  let text := pystrip raw
  if text = "" then (hist, none)
  else
    let r := send_ai_reply maxH provider hist (Content.str text)
    (r.1, some r.2)

-- ── bot.py media-group batching ─────────────────────────────────────────────

/-- The buffered state for one media_group_id in bot._media_groups. -/
structure MediaGroup where
  parts : List MPart
  caption : String

/-- The entry created on first arrival: `{"parts": [], "caption": "", ...}`. -/
def newMediaGroup : MediaGroup := { parts := [], caption := "" }

/-- The media-group branch of bot.handle_photo, for one group id: create the
entry if absent, append the image part, and overwrite the stored caption when
this message carries a non-empty (stripped) caption. -/
def mediaGroupAdd (g : Option MediaGroup) (imgPart : MPart) (caption : Option String) :
    MediaGroup :=
  let g0 := g.getD newMediaGroup
  let cap := pystrip (caption.getD "")
  { parts := g0.parts ++ [imgPart],
    caption := if cap ≠ "" then cap else g0.caption }

/-- The batcher state for one media_group_id: `none` means no live entry. -/
structure BatcherState where
  group : Option MediaGroup

/-- An event seen by the batcher for one group id: a photo with raw bytes and
optional caption, or the expiry of the (latest, non-cancelled) flush timer. -/
inductive BatchEvent where
  | photo (body : List Nat) (caption : Option String)
  | flushTimer

/-- bot._flush_media_group: pop the entry (no-op when already gone), choose
the stored caption or the default prompt, and dispatch one user turn holding
the collected parts plus a trailing text part. -/
def flush_media_group (st : BatcherState) : BatcherState × List Content :=
  match st.group with
  | none => (st, [])
  | some g =>
      let cap := if g.caption ≠ "" then g.caption else
        "Please describe what you see in these images."
      (⟨none⟩, [Content.parts (g.parts ++ [make_text_part cap])])

/-- One batcher step; photos are encoded as image/jpeg (bot.handle_photo). -/
def batchStep (st : BatcherState) : BatchEvent → BatcherState × List Content
  | .photo body cap =>
      (⟨some (mediaGroupAdd st.group (encode_image_bytes body "image/jpeg") cap)⟩, [])
  | .flushTimer => flush_media_group st

/-- Run a sequence of batcher events, collecting every dispatched user turn. -/
def batchRun (st : BatcherState) : List BatchEvent → BatcherState × List Content
  | [] => (st, [])
  | e :: es =>
      let r := batchStep st e
      let rest := batchRun r.1 es
      (rest.1, r.2 ++ rest.2)

-- ── bot.py reply splitting ──────────────────────────────────────────────────

/-- Python `range(start, stop, step)` for a positive step. -/
def pyrange (start stop step : Nat) : List Nat :=
  if h : 0 < step ∧ start < stop then
    start :: pyrange (start + step) stop step
  else []
termination_by stop - start
decreasing_by simp_wf; omega

/-- bot._split: `[text[i : i + size] for i in range(0, max(len(text), 1), size)]`
over the characters of the text. -/
def split_chunks (text : List Char) (size : Nat) : List (List Char) :=
  (pyrange 0 (max text.length 1) size).map (fun i => (text.drop i).take size)

/-- An alternating user/assistant history of length n, starting on a user
turn; used to exhibit concrete histories. -/
def altHist (n : Nat) : List HistItem :=
  (List.range n).map
    (fun i => if i % 2 = 0 then ⟨"user", Content.str "q"⟩ else ⟨"assistant", Content.str "a"⟩)

-- ── Wire-shape checkers (the shapes of the §4.2 translation table) ──────────

/-- The two OpenAI-style part shapes: a text-shaped part or an image_url part. -/
def isOpenaiWireShape : Json → Bool
  | .obj [("type", .str "text"), ("text", .str _)] => true
  | .obj [("type", .str "image_url"), ("image_url", .obj [("url", .str _)])] => true
  | _ => false

/-- The two Gemini-style part shapes: `{text}` or `{inlineData:{mimeType,data}}`. -/
def isGeminiWireShape : Json → Bool
  | .obj [("text", .str _)] => true
  | .obj [("inlineData", .obj [("mimeType", .str _), ("data", .str _)])] => true
  | _ => false

/-- The two Anthropic-style part shapes: a text-shaped part or an image part. -/
def isAnthropicWireShape : Json → Bool
  | .obj [("type", .str "text"), ("text", .str _)] => true
  | .obj [("type", .str "image"),
      ("source", .obj [("type", .str "base64"), ("media_type", .str _), ("data", .str _)])] => true
  | _ => false

-- ════════════════════════════════════════════════════════════════════════════
-- Theorems
-- ════════════════════════════════════════════════════════════════════════════

-- Helper lemmas (shared) ------------------------------------------------------

theorem openai_parts_shapes (ps : List MPart) :
    (ps.filterMap openaiPart).all isOpenaiWireShape = true := by
  induction ps with
  | nil => rfl
  | cons p ps ih => cases p <;> simp [List.filterMap_cons, openaiPart, isOpenaiWireShape, ih]

theorem gemini_parts_shapes (ps : List MPart) :
    (ps.filterMap geminiPart).all isGeminiWireShape = true := by
  induction ps with
  | nil => rfl
  | cons p ps ih => cases p <;> simp [List.filterMap_cons, geminiPart, isGeminiWireShape, ih]

theorem anthropic_parts_shapes (ps : List MPart) :
    (ps.filterMap anthropicPart).all isAnthropicWireShape = true := by
  induction ps with
  | nil => rfl
  | cons p ps ih => cases p <;> simp [List.filterMap_cons, anthropicPart, isAnthropicWireShape, ih]

-- C8 --------------------------------------------------------------------------

/-- C8.  OpenRouter reuses the OpenAI serialization: for every internal
history the request body (model and serialized messages) built by the
OpenRouter adapter equals the one built by the OpenAI adapter, both being
`build_openai_messages`; only the base endpoint differs. -/
theorem openrouter_openai_serialization_eq (model : String) (history : List HistItem) :
    (openrouterRequest model history).messages = (openaiRequest model history).messages
  ∧ (openrouterRequest model history).model = (openaiRequest model history).model
  ∧ (openrouterRequest model history).messages = build_openai_messages history
  ∧ (openrouterRequest model history).base_url = some OPENROUTER_BASE_URL
  ∧ (openaiRequest model history).base_url = none :=
  ⟨rfl, rfl, rfl, rfl, rfl⟩

-- C3 --------------------------------------------------------------------------

/-- C3 counterexample.  With an unrecognized provider selector the startup
validation of bot.main still succeeds (it checks only the two credentials),
and the unknown selector surfaces as a per-call dispatch error in ask_ai:
the claim that it is a fatal startup error and never a per-call error is
false on the code. -/
theorem unknown_provider_counterexample :
    mainChecks "token" "key" = Except.ok ()
  ∧ ask_ai "grok" "m" "key" []
      = Except.error "Unknown AI_PROVIDER: grok. Use: openrouter | openai | gemini | anthropic" :=
  ⟨rfl, rfl⟩

/-- C3 amended.  An unrecognized provider selector is not rejected at startup:
bot.main validates only that the bot token and the API key are non-empty, and
the selector instead raises a per-call ValueError when ask_ai dispatches. -/
theorem unknown_provider_per_call (provider model key : String) (hist : List HistItem)
    (h1 : provider ≠ "openrouter") (h2 : provider ≠ "openai")
    (h3 : provider ≠ "gemini") (h4 : provider ≠ "anthropic") :
    ask_ai provider model key hist
      = Except.error ("Unknown AI_PROVIDER: " ++ provider
          ++ ". Use: openrouter | openai | gemini | anthropic")
  ∧ ∀ token k2 : String, token ≠ "" → k2 ≠ "" → mainChecks token k2 = Except.ok () := by
  constructor
  · simp [ask_ai, h1, h2, h3, h4]
  · intro token k2 ht hk
    simp [mainChecks, ht, hk]

/-- C3 witness for `unknown_provider_per_call` at the selector "grok". -/
theorem unknown_provider_per_call_witness :
    ("grok" : String) ≠ "openrouter"
  ∧ (ask_ai "grok" "m" "k" []
      = Except.error ("Unknown AI_PROVIDER: " ++ "grok"
          ++ ". Use: openrouter | openai | gemini | anthropic")
    ∧ ∀ token k2 : String, token ≠ "" → k2 ≠ "" → mainChecks token k2 = Except.ok ()) :=
  ⟨by decide,
   unknown_provider_per_call "grok" "m" "k" [] (by decide) (by decide) (by decide) (by decide)⟩

-- C4 --------------------------------------------------------------------------

/-- C4.  Adapter translation table: the three serializers map role user to
"user"; role assistant to "assistant" (OpenAI/Anthropic) and "model"
(Gemini); a plain-string content passes through as the content scalar for
OpenAI/Anthropic and is wrapped as a single text part for Gemini; Text,
Image and PdfText parts become exactly the wire shapes of the table
(PdfText becoming a text-shaped part whose text starts with "[PDF Content]"
and a newline); and every produced part has one of these shapes and no other. -/
theorem adapter_translation_table (r s t data mime : String) (ps : List MPart) :
    build_openai_messages [⟨r, Content.str s⟩]
      = [.obj [("role", .str r), ("content", .str s)]]
  ∧ build_anthropic_messages [⟨r, Content.str s⟩]
      = [.obj [("role", .str r), ("content", .str s)]]
  ∧ build_gemini_contents [⟨"user", Content.str s⟩]
      = [.obj [("role", .str "user"), ("parts", .arr [.obj [("text", .str s)]])]]
  ∧ build_gemini_contents [⟨"assistant", Content.str s⟩]
      = [.obj [("role", .str "model"), ("parts", .arr [.obj [("text", .str s)]])]]
  ∧ build_openai_messages [⟨r, Content.parts ps⟩]
      = [.obj [("role", .str r), ("content", .arr (ps.filterMap openaiPart))]]
  ∧ build_gemini_contents [⟨"user", Content.parts ps⟩]
      = [.obj [("role", .str "user"), ("parts", .arr (ps.filterMap geminiPart))]]
  ∧ build_anthropic_messages [⟨r, Content.parts ps⟩]
      = [.obj [("role", .str r), ("content", .arr (ps.filterMap anthropicPart))]]
  ∧ openaiPart (.text t) = some (.obj [("type", .str "text"), ("text", .str t)])
  ∧ geminiPart (.text t) = some (.obj [("text", .str t)])
  ∧ anthropicPart (.text t) = some (.obj [("type", .str "text"), ("text", .str t)])
  ∧ openaiPart (.image_b64 data mime)
      = some (.obj [("type", .str "image_url"),
          ("image_url", .obj [("url", .str ("data:" ++ mime ++ ";base64," ++ data))])])
  ∧ geminiPart (.image_b64 data mime)
      = some (.obj [("inlineData", .obj [("mimeType", .str mime), ("data", .str data)])])
  ∧ anthropicPart (.image_b64 data mime)
      = some (.obj [("type", .str "image"),
          ("source", .obj [("type", .str "base64"), ("media_type", .str mime),
            ("data", .str data)])])
  ∧ openaiPart (.pdf_text t)
      = some (.obj [("type", .str "text"), ("text", .str ("[PDF Content]\n" ++ t))])
  ∧ geminiPart (.pdf_text t) = some (.obj [("text", .str ("[PDF Content]\n" ++ t))])
  ∧ anthropicPart (.pdf_text t)
      = some (.obj [("type", .str "text"), ("text", .str ("[PDF Content]\n" ++ t))])
  ∧ (ps.filterMap openaiPart).all isOpenaiWireShape = true
  ∧ (ps.filterMap geminiPart).all isGeminiWireShape = true
  ∧ (ps.filterMap anthropicPart).all isAnthropicWireShape = true := by
  refine ⟨rfl, rfl, ?_, ?_, rfl, ?_, rfl, rfl, rfl, rfl, rfl, rfl, rfl, rfl, rfl, rfl,
    openai_parts_shapes ps, gemini_parts_shapes ps, anthropic_parts_shapes ps⟩ <;>
    simp [build_gemini_contents, geminiContent]

-- C10 -------------------------------------------------------------------------

/-- C10.  Every adapter serializer silently drops a part whose tag is not
one of the three recognised ones (filtering the unknown parts away changes
nothing), the three public constructors only build recognised parts, and on
a list of recognised parts serialization preserves the number of parts
(order is preserved by filterMap). -/
theorem adapters_drop_unknown_parts (ps : List MPart) :
    (ps.filter partIsKnown).filterMap openaiPart = ps.filterMap openaiPart
  ∧ (ps.filter partIsKnown).filterMap geminiPart = ps.filterMap geminiPart
  ∧ (ps.filter partIsKnown).filterMap anthropicPart = ps.filterMap anthropicPart
  ∧ (∀ u : String, partIsKnown (make_text_part u) = true ∧ partIsKnown (make_pdf_part u) = true)
  ∧ (∀ d : List Nat, ∀ m : String, partIsKnown (encode_image_bytes d m) = true)
  ∧ (ps.all partIsKnown = true →
        (ps.filterMap openaiPart).length = ps.length
      ∧ (ps.filterMap geminiPart).length = ps.length
      ∧ (ps.filterMap anthropicPart).length = ps.length) := by
  refine ⟨?_, ?_, ?_, fun u => ⟨rfl, rfl⟩, fun d m => rfl, ?_⟩
  · induction ps with
    | nil => rfl
    | cons p ps ih => cases p <;> simp [List.filter_cons, List.filterMap_cons, partIsKnown,
        openaiPart, ih]
  · induction ps with
    | nil => rfl
    | cons p ps ih => cases p <;> simp [List.filter_cons, List.filterMap_cons, partIsKnown,
        geminiPart, ih]
  · induction ps with
    | nil => rfl
    | cons p ps ih => cases p <;> simp [List.filter_cons, List.filterMap_cons, partIsKnown,
        anthropicPart, ih]
  · intro hall
    induction ps with
    | nil => exact ⟨rfl, rfl, rfl⟩
    | cons p ps ih =>
        rw [List.all_cons, Bool.and_eq_true] at hall
        obtain ⟨ih1, ih2, ih3⟩ := ih hall.2
        cases p <;> simp_all [List.filterMap_cons, partIsKnown, openaiPart, geminiPart,
          anthropicPart]

/-- C10 witness for `adapters_drop_unknown_parts` on a concrete list of
recognised parts. -/
theorem adapters_drop_unknown_parts_witness :
    ([make_text_part "a", encode_image_bytes [1, 2] "image/png",
        make_pdf_part "c"].all partIsKnown = true)
  ∧ (([make_text_part "a", encode_image_bytes [1, 2] "image/png",
        make_pdf_part "c"].filterMap openaiPart).length
      = [make_text_part "a", encode_image_bytes [1, 2] "image/png",
          make_pdf_part "c"].length) := by
  have h := adapters_drop_unknown_parts
    [make_text_part "a", encode_image_bytes [1, 2] "image/png", make_pdf_part "c"]
  exact ⟨by decide, (h.2.2.2.2.2 (by decide)).1⟩

-- C9 --------------------------------------------------------------------------

/-- C9.  A text message that is empty or whitespace-only after stripping
makes handle_text return immediately: the history is unchanged, nothing is
dispatched, and since the result does not depend on the provider function
the provider is never consulted. -/
theorem handle_text_blank_noop (raw : String) (hblank : pystrip raw = "")
    (maxH : Nat) (provider : List HistItem → Except String String) (hist : List HistItem) :
    handle_text maxH provider hist raw = (hist, none) := by
  unfold handle_text
  rw [hblank]
  simp

/-- C9 witness for `handle_text_blank_noop` on the whitespace message "  ". -/
theorem handle_text_blank_noop_witness :
    pystrip "  " = ""
  ∧ handle_text 20 (fun _ => Except.ok "reply") [⟨"user", Content.str "q"⟩] "  "
      = ([⟨"user", Content.str "q"⟩], none) :=
  ⟨by decide,
   handle_text_blank_noop "  " (by decide) 20 (fun _ => Except.ok "reply")
     [⟨"user", Content.str "q"⟩]⟩

-- C2 --------------------------------------------------------------------------

/-- C2 counterexample.  Trimming the default-config history bound
(MAX_HISTORY = 20) on an alternating 41-item history removes exactly one
entry — an odd number, not a whole pair — and the result starts on an
assistant turn whose paired user turn was dropped, refuting the
whole-pairs part of the claim. -/
theorem trim_history_counterexample :
    (altHist 41).length = 41
  ∧ (trim_history 20 (altHist 41)).length = 40
  ∧ ((altHist 41).length - (trim_history 20 (altHist 41)).length) % 2 = 1
  ∧ (trim_history 20 (altHist 41)).head? = some ⟨"assistant", Content.str "a"⟩ :=
  ⟨rfl, rfl, rfl, rfl⟩

/-- C2 amended.  For a positive MAX_HISTORY bound, trimming a history of
length N keeps exactly min N (2 * MAX_HISTORY) entries, the result is a
suffix of the original (relative order preserved, removal only from the
front), and a history within the bound is returned unchanged; the number
of entries removed is N - min N (2 * MAX_HISTORY), which need not be even. -/
theorem trim_history_spec (maxH : Nat) (hist : List HistItem) (hpos : 0 < maxH) :
    (trim_history maxH hist).length = min hist.length (2 * maxH)
  ∧ trim_history maxH hist <:+ hist
  ∧ (hist.length ≤ 2 * maxH → trim_history maxH hist = hist) := by
  unfold trim_history
  by_cases hlen : hist.length > maxH * 2
  · rw [if_pos hlen, if_neg (by omega : ¬ maxH * 2 = 0)]
    refine ⟨?_, List.drop_suffix _ _, fun hle => absurd hle (by omega)⟩
    rw [List.length_drop]
    omega
  · rw [if_neg hlen]
    exact ⟨by omega, List.suffix_refl _, fun _ => rfl⟩

/-- C2 witness for `trim_history_spec` at MAX_HISTORY = 20 on a 5-item
history. -/
theorem trim_history_spec_witness :
    0 < 20
  ∧ ((trim_history 20 (altHist 5)).length = min (altHist 5).length (2 * 20)
    ∧ trim_history 20 (altHist 5) <:+ altHist 5
    ∧ ((altHist 5).length ≤ 2 * 20 → trim_history 20 (altHist 5) = altHist 5)) :=
  ⟨by decide, trim_history_spec 20 (altHist 5) (by decide)⟩

-- C1 --------------------------------------------------------------------------

/-- C1 counterexample.  With the default bound MAX_HISTORY = 20 and a
pre-call history already at the 40-item cap, a failed provider call leaves
39 items: the append pushed the history over the cap, the trim dropped the
oldest entry, and the failure handler popped only the just-appended user
turn, so the history does not revert to its pre-call state. -/
theorem send_ai_reply_rollback_counterexample :
    (altHist 40).length = 40
  ∧ ((send_ai_reply 20 (fun _ => Except.error "boom") (altHist 40) (Content.str "q1")).1).length
      = 39
  ∧ ¬ ((send_ai_reply 20 (fun _ => Except.error "boom") (altHist 40)
        (Content.str "q1")).1).length = (altHist 40).length :=
  ⟨rfl, rfl, by decide⟩

/-- C1 amended.  If the provider call fails and the pre-call history was
strictly below the 2 * MAX_HISTORY cap (so the trim after the append dropped
nothing), the failure handler restores the history to exactly its pre-call
state and emits one provider-error message; when the pre-call history is at
the cap, the trim drops the oldest entry and rollback leaves one entry
fewer than before the call. -/
theorem send_ai_reply_rollback (maxH : Nat) (provider : List HistItem → Except String String)
    (hist : List HistItem) (user_parts : Content) (msg : String)
    (hfail : provider (trim_history maxH (hist ++ [⟨"user", user_parts⟩])) = Except.error msg)
    (hroom : hist.length + 1 ≤ maxH * 2) :
    send_ai_reply maxH provider hist user_parts
      = (hist, SendOutcome.failed ("⚠️ AI error: " ++ msg)) := by
  have htrim : trim_history maxH (hist ++ [⟨"user", user_parts⟩])
      = hist ++ [⟨"user", user_parts⟩] := by
    unfold trim_history
    rw [if_neg (by simp; omega)]
  rw [htrim] at hfail
  simp only [send_ai_reply, htrim, hfail, List.dropLast_concat]

/-- C1 witness for `send_ai_reply_rollback` with an empty pre-call history
and a provider that always fails. -/
theorem send_ai_reply_rollback_witness :
    ((fun _ => Except.error "boom" : List HistItem → Except String String)
        (trim_history 1 ([] ++ [⟨"user", Content.str "q"⟩])) = Except.error "boom")
  ∧ (([] : List HistItem).length + 1 ≤ 1 * 2)
  ∧ send_ai_reply 1 (fun _ => Except.error "boom") [] (Content.str "q")
      = ([], SendOutcome.failed ("⚠️ AI error: " ++ "boom")) :=
  ⟨rfl, by decide,
   send_ai_reply_rollback 1 (fun _ => Except.error "boom") [] (Content.str "q") "boom"
     rfl (by decide)⟩

-- C7 --------------------------------------------------------------------------

/-- C7.  Three photos sharing one media group id — two without caption, the
third captioned "what is this?" — followed by the quiet-period flush produce
exactly one dispatched user turn: the three image parts in arrival order and
one trailing text part "what is this?"; a stale second timer expiry
dispatches nothing further.  When no caption was ever supplied the trailing
text part is the default prompt instead (last non-empty caption wins). -/
theorem media_group_batch (b1 b2 b3 : List Nat) :
    batchRun ⟨none⟩
      [BatchEvent.photo b1 none, BatchEvent.photo b2 none,
       BatchEvent.photo b3 (some "what is this?"), BatchEvent.flushTimer, BatchEvent.flushTimer]
    = (⟨none⟩,
       [Content.parts [encode_image_bytes b1 "image/jpeg", encode_image_bytes b2 "image/jpeg",
          encode_image_bytes b3 "image/jpeg", make_text_part "what is this?"]])
  ∧ batchRun ⟨none⟩
      [BatchEvent.photo b1 none, BatchEvent.photo b2 none, BatchEvent.photo b3 none,
       BatchEvent.flushTimer]
    = (⟨none⟩,
       [Content.parts [encode_image_bytes b1 "image/jpeg", encode_image_bytes b2 "image/jpeg",
          encode_image_bytes b3 "image/jpeg",
          make_text_part "Please describe what you see in these images."]])
  ∧ batchRun ⟨none⟩
      [BatchEvent.photo b1 (some "first"), BatchEvent.photo b2 none,
       BatchEvent.photo b3 (some "second"), BatchEvent.flushTimer]
    = (⟨none⟩,
       [Content.parts [encode_image_bytes b1 "image/jpeg", encode_image_bytes b2 "image/jpeg",
          encode_image_bytes b3 "image/jpeg", make_text_part "second"]]) := by
  refine ⟨rfl, rfl, rfl⟩

-- C5 --------------------------------------------------------------------------

/-- C5 counterexample.  The round trip is not the identity on every
plain-text content: serialization embeds the text " hi " unchanged, but
reply extraction applies strip, so a synthetic response carrying " hi "
extracts to "hi", not to the original text. -/
theorem adapter_roundtrip_counterexample :
    build_openai_messages [⟨"user", Content.str " hi "⟩]
      = [.obj [("role", .str "user"), ("content", .str " hi ")]]
  ∧ extractOpenaiReply ⟨[⟨⟨" hi "⟩⟩]⟩ = some "hi"
  ∧ some "hi" ≠ some (" hi " : String) :=
  ⟨rfl, by decide, by decide⟩

/-- C5 amended.  Every adapter serializes a plain-text-only history with
each text passed through verbatim, and extracting from a synthetic response
carrying a reply text returns that text stripped of surrounding whitespace;
hence the round trip returns the original text unchanged exactly for texts
already free of leading and trailing whitespace. -/
theorem adapter_roundtrip (s : String) (hs : pystrip s = s) (roles : List (String × String)) :
    extractOpenaiReply ⟨[⟨⟨s⟩⟩]⟩ = some s
  ∧ extractGeminiReply ⟨[⟨⟨[⟨s⟩]⟩⟩]⟩ = some s
  ∧ extractAnthropicReply ⟨[⟨s⟩]⟩ = some s
  ∧ (∀ u : String, extractOpenaiReply ⟨[⟨⟨u⟩⟩]⟩ = some (pystrip u)
      ∧ extractGeminiReply ⟨[⟨⟨[⟨u⟩]⟩⟩]⟩ = some (pystrip u)
      ∧ extractAnthropicReply ⟨[⟨u⟩]⟩ = some (pystrip u))
  ∧ build_openai_messages (roles.map (fun p => ⟨p.1, Content.str p.2⟩))
      = roles.map (fun p => Json.obj [("role", .str p.1), ("content", .str p.2)])
  ∧ build_anthropic_messages (roles.map (fun p => ⟨p.1, Content.str p.2⟩))
      = roles.map (fun p => Json.obj [("role", .str p.1), ("content", .str p.2)])
  ∧ build_gemini_contents (roles.map (fun p => ⟨p.1, Content.str p.2⟩))
      = roles.map (fun p => Json.obj
          [("role", .str (if p.1 = "user" then "user" else "model")),
           ("parts", .arr [.obj [("text", .str p.2)]])]) := by
  refine ⟨?_, ?_, ?_, fun u => ⟨rfl, rfl, rfl⟩, ?_, ?_, ?_⟩
  · simp [extractOpenaiReply, hs]
  · simp [extractGeminiReply, hs]
  · simp [extractAnthropicReply, hs]
  · simp only [build_openai_messages, List.map_map]
    exact List.map_congr_left (fun p _ => rfl)
  · simp only [build_anthropic_messages, List.map_map]
    exact List.map_congr_left (fun p _ => rfl)
  · simp only [build_gemini_contents, List.map_map]
    exact List.map_congr_left (fun p _ => rfl)

/-- C5 witness for `adapter_roundtrip` on the already-stripped text "hi". -/
theorem adapter_roundtrip_witness :
    pystrip "hi" = "hi"
  ∧ extractOpenaiReply ⟨[⟨⟨"hi"⟩⟩]⟩ = some "hi"
  ∧ extractGeminiReply ⟨[⟨⟨[⟨"hi"⟩]⟩⟩]⟩ = some "hi"
  ∧ extractAnthropicReply ⟨[⟨"hi"⟩]⟩ = some "hi" := by
  have h := adapter_roundtrip "hi" (by decide) [("user", "a")]
  exact ⟨by decide, h.1, h.2.1, h.2.2.1⟩

-- C6 --------------------------------------------------------------------------

theorem pyrange_eq_nil (start stop step : Nat) (h : ¬ start < stop) :
    pyrange start stop step = [] := by
  conv_lhs => unfold pyrange
  rw [dif_neg (fun hc => h hc.2)]

theorem pyrange_eq_cons (start stop step : Nat) (hstep : 0 < step) (h : start < stop) :
    pyrange start stop step = start :: pyrange (start + step) stop step := by
  conv_lhs => unfold pyrange
  rw [dif_pos ⟨hstep, h⟩]

theorem pyrange_shift (start stop step : Nat) (hstep : 0 < step) :
    pyrange (start + step) stop step
      = (pyrange start (stop - step) step).map (fun x => x + step) := by
  by_cases h : start + step < stop
  · rw [pyrange_eq_cons (start + step) stop step hstep h,
        pyrange_eq_cons start (stop - step) step hstep (by omega),
        List.map_cons,
        pyrange_shift (start + step) stop step hstep]
  · rw [pyrange_eq_nil (start + step) stop step h,
        pyrange_eq_nil start (stop - step) step (by omega), List.map_nil]
termination_by stop - start
decreasing_by simp_wf; omega

theorem split_chunks_cons (t : List Char) (S : Nat) (hS : 0 < S) (h : S < t.length) :
    split_chunks t S = t.take S :: split_chunks (t.drop S) S := by
  unfold split_chunks
  rw [show max t.length 1 = t.length by omega,
      show max (t.drop S).length 1 = t.length - S by rw [List.length_drop]; omega]
  rw [pyrange_eq_cons 0 t.length S hS (by omega), Nat.zero_add, List.map_cons, List.drop_zero]
  congr 1
  have hsh := pyrange_shift 0 t.length S hS
  rw [Nat.zero_add] at hsh
  rw [hsh, List.map_map]
  refine List.map_congr_left (fun i _ => ?_)
  simp [Function.comp, List.drop_drop, Nat.add_comm i S]

theorem split_chunks_small (t : List Char) (S : Nat) (hS : 0 < S) (h : t.length ≤ S) :
    split_chunks t S = [t] := by
  unfold split_chunks
  rw [pyrange_eq_cons 0 (max t.length 1) S hS (by omega), Nat.zero_add,
      pyrange_eq_nil S (max t.length 1) S (by omega)]
  simp [List.take_of_length_le h]

theorem split_chunks_main (t : List Char) (S : Nat) (hS : 0 < S) :
    (split_chunks t S).length = (max t.length 1 + S - 1) / S
  ∧ (split_chunks t S).flatten = t
  ∧ ((split_chunks t S).dropLast.all fun c => c.length == S) = true := by
  by_cases h : S < t.length
  · obtain ⟨ih1, ih2, ih3⟩ := split_chunks_main (t.drop S) S hS
    rw [split_chunks_cons t S hS h]
    refine ⟨?_, ?_, ?_⟩
    · rw [List.length_cons, ih1, List.length_drop]
      rw [show max (t.length - S) 1 = t.length - S by omega,
          show max t.length 1 = t.length by omega,
          show t.length + S - 1 = (t.length - S + S - 1) + S by omega,
          Nat.add_div_right _ hS]
    · rw [show (t.take S :: split_chunks (t.drop S) S).flatten
            = t.take S ++ (split_chunks (t.drop S) S).flatten from rfl,
          ih2, List.take_append_drop]
    · have hlen : 1 ≤ (split_chunks (t.drop S) S).length := by
        rw [ih1]
        exact (Nat.one_le_div_iff hS).mpr (by omega)
      have hne : split_chunks (t.drop S) S ≠ [] :=
        List.length_pos.mp (by omega)
      rw [List.dropLast_cons_of_ne_nil hne, List.all_cons, ih3]
      simp [List.length_take, Nat.min_eq_left h.le]
  · rw [split_chunks_small t S hS (by omega)]
    refine ⟨?_, by simp, rfl⟩
    rw [List.length_singleton,
        Nat.div_eq_of_lt_le (by omega : 1 * S ≤ max t.length 1 + S - 1)
          (by omega : max t.length 1 + S - 1 < (1 + 1) * S)]
termination_by t.length
decreasing_by simp_wf; omega

/-- C6.  Splitting a text of length L into chunks of size S > 0 yields
exactly ceil (max L 1 / S) contiguous chunks whose concatenation is the
input, every chunk except possibly the last having length exactly S; the
empty text yields exactly one empty chunk, and the output always holds at
least one chunk. -/
theorem split_chunks_spec (t : List Char) (S : Nat) (hS : 0 < S) :
    (split_chunks t S).length = (max t.length 1 + S - 1) / S
  ∧ (split_chunks t S).flatten = t
  ∧ ((split_chunks t S).dropLast.all fun c => c.length == S) = true
  ∧ 1 ≤ (split_chunks t S).length
  ∧ split_chunks ([] : List Char) S = [[]] := by
  obtain ⟨h1, h2, h3⟩ := split_chunks_main t S hS
  refine ⟨h1, h2, h3, ?_, ?_⟩
  · rw [h1]
    exact (Nat.one_le_div_iff hS).mpr (by omega)
  · rw [split_chunks_small [] S hS (by simp)]

/-- C6 witness for `split_chunks_spec` on the three-character text "abc"
with chunk size 2. -/
theorem split_chunks_spec_witness :
    0 < 2
  ∧ ((split_chunks ['a', 'b', 'c'] 2).length
        = (max (['a', 'b', 'c'] : List Char).length 1 + 2 - 1) / 2
    ∧ (split_chunks ['a', 'b', 'c'] 2).flatten = ['a', 'b', 'c']
    ∧ ((split_chunks ['a', 'b', 'c'] 2).dropLast.all fun c => c.length == 2) = true
    ∧ 1 ≤ (split_chunks ['a', 'b', 'c'] 2).length
    ∧ split_chunks ([] : List Char) 2 = [[]]) :=
  ⟨by decide, split_chunks_spec ['a', 'b', 'c'] 2 (by decide)⟩
